import Mathlib

/-!
Shallow embedding of the workspace-join / permission / identity layer of the
collaborative code-editor client, together with theorems about its claimed
properties.  The embedded functions are transcribed from:

  * src/src/atoms/firebaseAtoms.ts        (identity adapter, file-id resolver,
                                           permission-gated accessors, the two
                                           workspace-join flows)
  * src/src/pages/CopyFilePage.tsx        (file-copy flow)
  * src/src/components/settings/SettingsModal.tsx  (settings modal state machine)

JavaScript truthiness of optional strings (`!s` is true for both `null` and
`""`) is modelled explicitly by `truthyStr`.  Asynchronous database calls are
modelled by values describing the writes an invocation performs: an invocation
that throws before reaching the database is represented by a constructor that
carries no write at all.
-/

namespace IdeSpec

/-- JS truthiness of a `string | null | undefined` value:
falsy exactly when absent or the empty string. -/
def truthyStr : Option String → Bool
  | none => false
  | some s => !s.isEmpty

/-- Access level of a user on a workspace, from `src/src/atoms/workspace.ts`
usage sites: one of the four string constants used throughout the source. -/
inductive Permission where
  | OWNER
  | READ_WRITE
  | READ
  | PRIVATE
deriving DecidableEq, Repr

/-- A real-time database reference, reduced to what the embedded code
observes: its key.  `Reference.key` is `string | null` in the client library
(null only for the root reference), hence `Option String`. -/
structure FbRef where
  key : Option String
deriving DecidableEq, Repr

/-- Modelled from the spec: `src/scripts/colorFromUserId` is not under `src/`.
The spec (§3) describes the color as a deterministic function of the user id;
any pure function of the id is a faithful model for the claims below, which
only use that the written color is this function applied to the user key. -/
def colorFromUserId (id : String) : String :=
  "hsl(" ++ id ++ ")"

/-- Modelled from the spec: `src/scripts/animals` is not under `src/`.
The spec (§4.1) describes it as a fixed list of animal names from which a
random element is drawn for default display names. -/
def animals : List String :=
  ["Aardvark", "Albatross", "Capuchin", "Dingo", "Echidna", "Flamingo"]

/-! ## Permission-gated reference accessors
(`authenticatedFirebaseRefAtom`, `authenticatedUserRefAtom`,
`src/src/atoms/firebaseAtoms.ts` lines 98-125) -/

/-- The atom `authenticatedFirebaseRefAtom`: derives the authenticated
workspace reference from the current permission and the raw
`firebaseRefAtom` value. -/
def authenticatedFirebaseRef (permission : Option Permission)
    (ref : Option FbRef) : Option FbRef :=
  if permission = some .OWNER ∨ permission = some .READ_WRITE ∨
      permission = some .READ then
    ref
  else
    none

/-- The atom `authenticatedUserRefAtom`: the same derivation applied to the
raw `userRefAtom` value. -/
def authenticatedUserRef (permission : Option Permission)
    (ref : Option FbRef) : Option FbRef :=
  if permission = some .OWNER ∨ permission = some .READ_WRITE ∨
      permission = some .READ then
    ref
  else
    none

/-! ## Join as owner
(`joinNewWorkspaceAsOwnerAtom`, `src/src/atoms/firebaseAtoms.ts` lines 127-149) -/

/-- The single multi-path update performed by a successful join-as-owner:
`ref.update({ [users/<userKey>]: {name, color, permission: 'OWNER'},
'settings/defaultPermission': 'READ_WRITE' })`. -/
structure OwnerJoinUpdate where
  userKey : String
  userName : String
  userColor : String
  userPermission : Permission
  settingsDefaultPermission : Permission
deriving DecidableEq, Repr

/-- The write function of `joinNewWorkspaceAsOwnerAtom`.  Returns either the error
message thrown before any database access, or the single update performed. -/
def joinNewWorkspaceAsOwner (ref : Option FbRef) (userRef : Option FbRef)
    (name : Option String) : Except String OwnerJoinUpdate :=
  if ref.isNone then
    .error "ref must be set before workspace can be joined"
  else
    match userRef with
    | none =>
      .error "userRef (and userRef.key) must be set before workspace can be joined"
    | some u =>
      match u.key with
      | none =>
        .error "userRef (and userRef.key) must be set before workspace can be joined"
      | some k =>
        if k.isEmpty then
          .error "userRef (and userRef.key) must be set before workspace can be joined"
        else
          match name with
          | none =>
            .error "user name must be set before workspace can be joined"
          | some n =>
            if n.isEmpty then
              .error "user name must be set before workspace can be joined"
            else
              .ok { userKey := k
                    userName := n
                    userColor := colorFromUserId k
                    userPermission := .OWNER
                    settingsDefaultPermission := .READ_WRITE }

/-! ## Join existing with default permission
(`joinExistingWorkspaceWithDefaultPermissionAtom`,
`src/src/atoms/firebaseAtoms.ts` lines 151-196) -/

/-- A failure delivered by the database client, as the code distinguishes
them: a `PERMISSION_DENIED` code versus anything else. -/
inductive FbError where
  | permissionDenied
  | other (msg : String)
deriving DecidableEq, Repr

/-- The value stored at the user's own record (`snap.val()` of
`userRef.once('value')` when non-null): the fields the code reads. -/
structure StoredUser where
  name : Option String := none
  permission : Option Permission := none
deriving DecidableEq, Repr

/-- The database writes a completed join-existing invocation performs. -/
inductive JoinAction where
  /-- private file, or the stored name already matches: no write at all. -/
  | noWrite
  /-- the call `userRef.update({ name, color })`: merge exactly these two
  fields into the user's record. -/
  | updateNameColor (name color : String)
  /-- the call `userRef.child('name').set(name)`: overwrite exactly the
  name field. -/
  | setName (name : String)
deriving DecidableEq, Repr

/-- Overall outcome of a join-existing invocation. -/
inductive JoinResult where
  /-- a precondition check threw before the database was touched. -/
  | threw (msg : String)
  /-- the `.catch` handler re-threw a non-`PERMISSION_DENIED` failure. -/
  | failed (e : FbError)
  /-- the promise chain resolved, having performed `a`. -/
  | completed (a : JoinAction)
deriving DecidableEq, Repr

/-- The `.then` callback (lines 170-187): decides the write from the default
permission, the current session name, the user key, and the snapshot value. -/
def joinExistingThen (permission : Permission) (name userKey : String)
    (snap : Option StoredUser) : JoinAction :=
  if permission = .PRIVATE ∧ (snap.bind StoredUser.permission).isNone then
    -- file is private
    .noWrite
  else if !truthyStr (snap.bind StoredUser.name) then
    -- first time on this doc, need to add to user list
    .updateNameColor name (colorFromUserId userKey)
  else if snap.bind StoredUser.name ≠ some name then
    .setName name
  else
    .noWrite

/-- The promise chain `userRef.once('value').then(...).catch(...)`
(lines 168-194): a read failure skips the `.then` callback and reaches the
`.catch`, which swallows `PERMISSION_DENIED` and re-throws anything else. -/
def joinExistingPipeline (permission : Permission) (name userKey : String)
    (readResult : Except FbError (Option StoredUser)) : JoinResult :=
  match readResult with
  | .ok snap => .completed (joinExistingThen permission name userKey snap)
  | .error .permissionDenied => .completed .noWrite
  | .error e => .failed e

/-- The write function of `joinExistingWorkspaceWithDefaultPermissionAtom`.
Here `readResult` is the outcome of the single point-in-time read of the
user's record; it is consumed only after all four precondition checks pass. -/
def joinExistingWorkspaceWithDefaultPermission (ref userRef : Option FbRef)
    (name : Option String) (permission : Option Permission)
    (readResult : Except FbError (Option StoredUser)) : JoinResult :=
  if ref.isNone then
    .threw "ref must be set before workspace can be joined"
  else
    match userRef with
    | none =>
      .threw "userRef (and userRef.key) must be set before workspace can be joined"
    | some u =>
      match u.key with
      | none =>
        .threw "userRef (and userRef.key) must be set before workspace can be joined"
      | some k =>
        if k.isEmpty then
          .threw "userRef (and userRef.key) must be set before workspace can be joined"
        else
          match name with
          | none =>
            .threw "user name must be set before workspace can be joined"
          | some n =>
            if n.isEmpty then
              .threw "user name must be set before workspace can be joined"
            else
              match permission with
              | none =>
                .threw "permission must be set before workspace can be joined"
              | some p => joinExistingPipeline p n k readResult

/-! ## File/workspace reference resolver
(`fileIdAtom`, `src/src/atoms/firebaseAtoms.ts` lines 42-92) -/

/-- The value stored in `baseFileIdAtom` when non-null. -/
structure BaseFileId where
  id : String
  isNewFile : Bool
deriving DecidableEq, Repr

/-- The two atoms the `fileIdAtom` write function mutates. -/
structure FileIdState where
  baseFileId : Option BaseFileId
  firebaseRef : Option FbRef
deriving DecidableEq, Repr

/-- The payload accepted by the `fileIdAtom` write function
(`{ newId: string | null; isNewFile?: boolean }`). -/
structure SetFileIdPayload where
  newId : Option String
  isNewFile : Option Bool := none
deriving DecidableEq, Repr

/-- Everything one invocation of the `fileIdAtom` write function does. -/
structure SetFileIdOutcome where
  state : FileIdState
  /-- path passed to `navigate(..., { replace: true })`, when navigation
  occurred this invocation. -/
  navigatedTo : Option String
  /-- whether this invocation resolved a database reference (a child lookup
  for a supplied identifier, or a `push()` allocation). -/
  resolvedRef : Bool
deriving DecidableEq, Repr

/-- The write function of `fileIdAtom`.  `pushKey` stands for the unique key
the database client would generate for `ref.push()` (push keys start with a
dash); `search` stands for `window.location.search`.

The guard `get(baseFileIdAtom)?.id === newId && !!newId` is modelled by
`st.baseFileId.map BaseFileId.id = payload.newId ∧ truthyStr payload.newId`:
the Option equality also holds when both sides are absent, but that case is
excluded by the truthiness conjunct exactly as in the source. -/
def setFileId (st : FileIdState) (payload : Option SetFileIdPayload)
    (pushKey : String) (search : String) : SetFileIdOutcome :=
  match payload with
  | none =>
    { state := { baseFileId := none, firebaseRef := none }
      navigatedTo := none
      resolvedRef := false }
  | some payload =>
    if st.baseFileId.map BaseFileId.id = payload.newId ∧ truthyStr payload.newId then
      -- target file already loaded, ignore
      { state := st, navigatedTo := none, resolvedRef := false }
    else
      let key : String :=
        if truthyStr payload.newId then "-" ++ payload.newId.getD ""
        else pushKey -- generate unique location
      { state :=
          { baseFileId := some { id := key, isNewFile := payload.isNewFile.getD false }
            firebaseRef := some { key := some key } }
        navigatedTo :=
          if payload.isNewFile.getD false then some ("/" ++ key.drop 1 ++ search)
          else none
        resolvedRef := true }

/-! ## Identity provider adapter
(`firebaseUserAtom`, `src/src/atoms/firebaseAtoms.ts` lines 11-29) -/

/-- The slice of the identity provider's user object the code reads. -/
structure FbUser where
  displayName : Option String
deriving DecidableEq, Repr

/-- Everything one invocation of the `firebaseUserAtom` write function does. -/
structure FirebaseUserOutcome where
  /-- the value written to `baseFirebaseUserAtom`. -/
  baseUser : Option FbUser
  /-- the value written to `userNameAtom`. -/
  userName : Option String
  /-- the display name persisted via `user.updateProfile`, when one was
  assigned. -/
  profileUpdate : Option String
deriving DecidableEq, Repr

/-- The write function of `firebaseUserAtom`.  `randomIdx` stands for
`Math.floor(animals.length * Math.random())`, which always lies in
`[0, animals.length)`. -/
def setFirebaseUser (user : Option FbUser) (randomIdx : Nat) : FirebaseUserOutcome :=
  match user with
  | none => { baseUser := none, userName := none, profileUpdate := none }
  | some u =>
    let generated := "Anonymous " ++ animals.getD randomIdx ""
    if !truthyStr u.displayName then
      { baseUser := some u
        userName := some generated
        profileUpdate := some generated }
    else
      { baseUser := some u
        userName := u.displayName
        profileUpdate := none }

/-! ## File-copy flow
(`CopyFilePage`, `src/src/pages/CopyFilePage.tsx` lines 16-58) -/

/-- A document-store object value, as an association list from field name to
an opaque payload string.  JS object keys are unique; the embedded
operations only read and remove keys. -/
abbrev Obj := List (String × String)

/-- The destructuring `const { users, defaultPermission, ...toKeep } = v`:
every field except `users` and `defaultPermission` survives. -/
def stripUsersAndDefaultPermission (o : Obj) : Obj :=
  o.filter fun kv => kv.1 != "users" && kv.1 != "defaultPermission"

/-- The fixed whitelist of top-level fields the copy flow reads. -/
def keysToCopy : List String :=
  ["editor-cpp", "editor-java", "editor-py", "settings", "input"]

/-- Everything the `CopyFilePage` effect does on one run. -/
inductive CopyOutcome where
  /-- bad identifier: `alert('Error: Bad URL')` then
  `navigate('/', { replace: true })`, no database access at all. -/
  | badUrl (alertMsg navigateTo : String) (replaceHistory : Bool)
  /-- a read failed with `PERMISSION_DENIED`: render the private-file page. -/
  | permissionDeniedPage
  /-- a read failed otherwise: alert and re-throw. -/
  | cloneFailed (alertMsg : String)
  /-- success: `newRef.set(updateObject)` with the listed writes, then the
  new reference is activated as a newly created file. -/
  | copied (newDocWrites : List (String × Obj)) (activatedId : String)
      (isNewFile : Bool)
deriving DecidableEq, Repr

/-- The `useEffect` body of `CopyFilePage`.  `readResult` is the outcome of
the `Promise.all` of the five point-in-time reads, delivering the source
document's top-level fields on success; `newKey` stands for the key of the
freshly pushed reference (push keys start with a dash, which the code strips
before activating the new file). -/
def copyFilePageEffect (fileId : Option String)
    (readResult : Except FbError (String → Option Obj))
    (newKey : String) : CopyOutcome :=
  if fileId.map String.length ≠ some 19 then
    .badUrl "Error: Bad URL" "/" true
  else
    match readResult with
    | .error .permissionDenied => .permissionDeniedPage
    | .error (.other msg) => .cloneFailed ("Failed to clone file: " ++ msg)
    | .ok src =>
      .copied
        (keysToCopy.map fun key =>
          (key, stripUsersAndDefaultPermission ((src key).getD [])))
        (newKey.drop 1) true

/-! ## Settings modal
(`SettingsModal`, `src/src/components/settings/SettingsModal.tsx`) -/

/-- Modelled from the spec: the `WorkspaceSettings` shape is declared in
`SettingsContext.tsx`, which is not under `src/`.  The spec (§4.5, §3) only
requires a record of workspace-settings fields edited as a draft/committed
pair; two representative fields are used.  The claims below do not depend on
the particular fields. -/
structure WorkspaceSettings where
  compilerOptions : String := ""
  language : String := ""
deriving DecidableEq, Repr

/-- The type `Partial<WorkspaceSettings>`: every field optional. -/
structure WorkspaceSettingsPatch where
  compilerOptions : Option String := none
  language : Option String := none
deriving DecidableEq, Repr

/-- The `useReducer` merge `(prev, next) => ({ ...prev, ...next })`
(`SettingsModal.tsx` lines 66-74). -/
def mergeSettings (prev : WorkspaceSettings) (next : WorkspaceSettingsPatch) :
    WorkspaceSettings :=
  { compilerOptions := next.compilerOptions.getD prev.compilerOptions
    language := next.language.getD prev.language }

/-- Passing a full `WorkspaceSettings` where a partial one is expected, as
the seed `setWorkspaceSettings(realWorkspaceSettings)` does: every field
present. -/
def toPatch (s : WorkspaceSettings) : WorkspaceSettingsPatch :=
  { compilerOptions := some s.compilerOptions
    language := some s.language }

/-- The modal's state: the committed settings from `useSettings()`, the
draft reducer state, the dirty ref, the name and tab `useState`s, and the
open flag controlled by the parent through `onClose`. -/
structure ModalState where
  isOpen : Bool
  committed : WorkspaceSettings
  draft : WorkspaceSettings
  dirty : Bool
  name : Option String
  tab : String
deriving DecidableEq, Repr

/-- The `useEffect` on `isOpen` (`SettingsModal.tsx` lines 83-92) as it runs
when the modal opens: seed the draft from the committed settings
(`setWorkspaceSettings(realWorkspaceSettings)` through the merging reducer),
seed the name from the identity record (`firebaseUser?.displayName || null`),
clear the dirty flag, reset the tab. -/
def openModal (st : ModalState) (firebaseUserDisplayName : Option String) :
    ModalState :=
  { st with
    isOpen := true
    draft := mergeSettings st.draft (toPatch st.committed)
    name :=
      if truthyStr firebaseUserDisplayName then firebaseUserDisplayName
      else none
    dirty := false
    tab := "workspace" }

/-- The draft mutation callback `onChange` (`SettingsModal.tsx` lines
119-122): mark dirty, then merge the partial update into the draft. -/
def onChangeSettings (st : ModalState) (data : WorkspaceSettingsPatch) :
    ModalState :=
  { st with
    dirty := true
    draft := mergeSettings st.draft data }

/-- The callback `closeWithoutSaving` (`SettingsModal.tsx` lines 94-104);
`confirmed` is the user's answer to the confirm dialog, consulted only when
the dirty flag is set.  `onClose()` is modelled as clearing the open flag. -/
def closeWithoutSaving (st : ModalState) (confirmed : Bool) : ModalState :=
  if st.dirty then
    if confirmed then { st with isOpen := false } else st
  else
    { st with isOpen := false }

/-! ## Theorems -/

/-- C6: for every permission value and every raw reference, both
permission-gated accessors are pure derivations returning the reference
unchanged for OWNER, READ_WRITE and READ, and null for PRIVATE or unset.
All five permission cases are enumerated for both accessors; purity holds
because the embedded accessors are functions of their two inputs alone. -/
theorem authenticatedRef_spec (ref : Option FbRef) :
    authenticatedFirebaseRef (some .OWNER) ref = ref ∧
    authenticatedFirebaseRef (some .READ_WRITE) ref = ref ∧
    authenticatedFirebaseRef (some .READ) ref = ref ∧
    authenticatedFirebaseRef (some .PRIVATE) ref = none ∧
    authenticatedFirebaseRef none ref = none ∧
    authenticatedUserRef (some .OWNER) ref = ref ∧
    authenticatedUserRef (some .READ_WRITE) ref = ref ∧
    authenticatedUserRef (some .READ) ref = ref ∧
    authenticatedUserRef (some .PRIVATE) ref = none ∧
    authenticatedUserRef none ref = none := by
  refine ⟨?_, ?_, ?_, ?_, ?_, ?_, ?_, ?_, ?_, ?_⟩ <;>
    simp [authenticatedFirebaseRef, authenticatedUserRef]

/-- C1: when the workspace reference, the user reference (with a non-empty
key) and a non-empty user name are all set, join-as-owner performs the
single update writing the user's presence record (name, color derived from
the user key, permission OWNER) under `users/<userKey>` and setting
`settings/defaultPermission` to READ_WRITE; when any of the three is
missing, it throws an error and performs no write (the `.error` outcome
carries no update). -/
theorem joinNewWorkspaceAsOwner_spec (ref userRef : Option FbRef)
    (name : Option String) :
    (∀ r u k n, ref = some r → userRef = some u → u.key = some k →
        k.isEmpty = false → name = some n → n.isEmpty = false →
        joinNewWorkspaceAsOwner ref userRef name =
          .ok { userKey := k
                userName := n
                userColor := colorFromUserId k
                userPermission := .OWNER
                settingsDefaultPermission := .READ_WRITE }) ∧
    ((ref = none ∨ truthyStr (userRef.bind FbRef.key) = false ∨
        truthyStr name = false) →
      ∃ msg, joinNewWorkspaceAsOwner ref userRef name = .error msg) := by
  constructor
  · rintro r u k n rfl rfl hk hkE rfl hnE
    simp [joinNewWorkspaceAsOwner, hk, hkE, hnE]
  · intro h
    rcases ref with _ | r
    · exact ⟨"ref must be set before workspace can be joined",
        by simp [joinNewWorkspaceAsOwner]⟩
    rcases userRef with _ | u
    · exact ⟨"userRef (and userRef.key) must be set before workspace can be joined",
        by simp [joinNewWorkspaceAsOwner]⟩
    rcases hk : u.key with _ | k
    · exact ⟨"userRef (and userRef.key) must be set before workspace can be joined",
        by simp [joinNewWorkspaceAsOwner, hk]⟩
    cases hke : k.isEmpty with
    | true =>
      exact ⟨"userRef (and userRef.key) must be set before workspace can be joined",
        by simp [joinNewWorkspaceAsOwner, hk, hke]⟩
    | false =>
      rcases name with _ | n
      · exact ⟨"user name must be set before workspace can be joined",
          by simp [joinNewWorkspaceAsOwner, hk, hke]⟩
      cases hne : n.isEmpty with
      | true =>
        exact ⟨"user name must be set before workspace can be joined",
          by simp [joinNewWorkspaceAsOwner, hk, hke, hne]⟩
      | false =>
        exfalso
        simp [truthyStr, hk, hke, hne] at h

/-- Witness for C1 at a concrete valid triple. -/
theorem joinNewWorkspaceAsOwner_spec_witness :
    joinNewWorkspaceAsOwner (some ⟨some "-w1"⟩) (some ⟨some "u1"⟩)
        (some "Alice") =
      .ok { userKey := "u1"
            userName := "Alice"
            userColor := colorFromUserId "u1"
            userPermission := .OWNER
            settingsDefaultPermission := .READ_WRITE } :=
  (joinNewWorkspaceAsOwner_spec (some ⟨some "-w1"⟩) (some ⟨some "u1"⟩)
      (some "Alice")).1
    ⟨some "-w1"⟩ ⟨some "u1"⟩ "u1" "Alice" rfl rfl rfl (by decide) rfl (by decide)

/-- C10: with the three shared preconditions satisfied but the workspace's
default permission unset, join-existing throws the descriptive error, for
every possible outcome of the read — so before any read or write of the
document store is consumed. -/
theorem joinExisting_unset_permission (r u : FbRef) (k n : String)
    (hk : u.key = some k) (hke : k.isEmpty = false) (hne : n.isEmpty = false)
    (readResult : Except FbError (Option StoredUser)) :
    joinExistingWorkspaceWithDefaultPermission (some r) (some u) (some n)
        none readResult =
      .threw "permission must be set before workspace can be joined" := by
  simp [joinExistingWorkspaceWithDefaultPermission, hk, hke, hne]

/-- Witness for C10 at a concrete state. -/
theorem joinExisting_unset_permission_witness :
    joinExistingWorkspaceWithDefaultPermission (some ⟨some "-w1"⟩)
        (some ⟨some "u1"⟩) (some "Alice") none (.ok none) =
      .threw "permission must be set before workspace can be joined" :=
  joinExisting_unset_permission ⟨some "-w1"⟩ ⟨some "u1"⟩ "u1" "Alice" rfl
    (by decide) (by decide) (.ok none)

/-- Helper: with all four preconditions satisfied, join-existing reduces to
the promise chain over the read outcome. -/
theorem joinExisting_run (r u : FbRef) (k n : String)
    (hk : u.key = some k) (hke : k.isEmpty = false) (hne : n.isEmpty = false)
    (p : Permission) (readResult : Except FbError (Option StoredUser)) :
    joinExistingWorkspaceWithDefaultPermission (some r) (some u) (some n)
        (some p) readResult =
      joinExistingPipeline p n k readResult := by
  simp [joinExistingWorkspaceWithDefaultPermission, hk, hke, hne]

/-- C2: with the preconditions satisfied and default permission PRIVATE, a
successful read showing no stored permission for the user leads to
completion with no write; a PERMISSION_DENIED failure of the read is
swallowed and also completes with no write; any other read failure
propagates to the caller. -/
theorem joinExisting_private_spec (r u : FbRef) (k n : String)
    (hk : u.key = some k) (hke : k.isEmpty = false) (hne : n.isEmpty = false) :
    (∀ snap : Option StoredUser, snap.bind StoredUser.permission = none →
      joinExistingWorkspaceWithDefaultPermission (some r) (some u) (some n)
          (some .PRIVATE) (.ok snap) = .completed .noWrite) ∧
    (∀ p : Permission,
      joinExistingWorkspaceWithDefaultPermission (some r) (some u) (some n)
          (some p) (.error .permissionDenied) = .completed .noWrite) ∧
    (∀ (p : Permission) (msg : String),
      joinExistingWorkspaceWithDefaultPermission (some r) (some u) (some n)
          (some p) (.error (.other msg)) = .failed (.other msg)) := by
  refine ⟨?_, ?_, ?_⟩
  · intro snap hperm
    rw [joinExisting_run r u k n hk hke hne]
    simp [joinExistingPipeline, joinExistingThen, hperm]
  · intro p
    rw [joinExisting_run r u k n hk hke hne]
    simp [joinExistingPipeline]
  · intro p msg
    rw [joinExisting_run r u k n hk hke hne]
    simp [joinExistingPipeline]

/-- Witness for C2 at concrete states: a private file with no stored record,
a permission-denied read, and a generic read failure. -/
theorem joinExisting_private_spec_witness :
    joinExistingWorkspaceWithDefaultPermission (some ⟨some "-w1"⟩)
        (some ⟨some "u1"⟩) (some "Alice") (some .PRIVATE) (.ok none) =
      .completed .noWrite ∧
    joinExistingWorkspaceWithDefaultPermission (some ⟨some "-w1"⟩)
        (some ⟨some "u1"⟩) (some "Alice") (some .READ_WRITE)
        (.error .permissionDenied) = .completed .noWrite ∧
    joinExistingWorkspaceWithDefaultPermission (some ⟨some "-w1"⟩)
        (some ⟨some "u1"⟩) (some "Alice") (some .READ_WRITE)
        (.error (.other "disconnected")) = .failed (.other "disconnected") :=
  ⟨(joinExisting_private_spec ⟨some "-w1"⟩ ⟨some "u1"⟩ "u1" "Alice" rfl
      (by decide) (by decide)).1 none rfl,
   (joinExisting_private_spec ⟨some "-w1"⟩ ⟨some "u1"⟩ "u1" "Alice" rfl
      (by decide) (by decide)).2.1 .READ_WRITE,
   (joinExisting_private_spec ⟨some "-w1"⟩ ⟨some "u1"⟩ "u1" "Alice" rfl
      (by decide) (by decide)).2.2 .READ_WRITE "disconnected"⟩

/-- C5: once an invocation proceeds past the private-file check, a stored
record with a falsy name gets exactly a `{name, color}` merge; a stored name
differing from the session name gets exactly the name field overwritten; a
stored name equal to the session name causes no write. -/
theorem joinExisting_name_spec (r u : FbRef) (k n : String)
    (hk : u.key = some k) (hke : k.isEmpty = false) (hne : n.isEmpty = false)
    (p : Permission) (snap : Option StoredUser)
    (hpast : ¬(p = .PRIVATE ∧ snap.bind StoredUser.permission = none)) :
    (truthyStr (snap.bind StoredUser.name) = false →
      joinExistingWorkspaceWithDefaultPermission (some r) (some u) (some n)
          (some p) (.ok snap) =
        .completed (.updateNameColor n (colorFromUserId k))) ∧
    (∀ s : String, snap.bind StoredUser.name = some s → s.isEmpty = false →
      s ≠ n →
      joinExistingWorkspaceWithDefaultPermission (some r) (some u) (some n)
          (some p) (.ok snap) = .completed (.setName n)) ∧
    (snap.bind StoredUser.name = some n →
      joinExistingWorkspaceWithDefaultPermission (some r) (some u) (some n)
          (some p) (.ok snap) = .completed .noWrite) := by
  have hcond : ¬(p = Permission.PRIVATE ∧
      (snap.bind StoredUser.permission).isNone = true) := by
    simpa [Option.isNone_iff_eq_none] using hpast
  refine ⟨?_, ?_, ?_⟩
  · intro hname
    rw [joinExisting_run r u k n hk hke hne]
    simp only [joinExistingPipeline, joinExistingThen]
    rw [if_neg hcond, if_pos]
    simp [hname]
  · intro s hs hsE hsn
    rw [joinExisting_run r u k n hk hke hne]
    simp only [joinExistingPipeline, joinExistingThen]
    rw [if_neg hcond, if_neg, if_pos]
    · simp [hs, hsn]
    · simp [hs, truthyStr, hsE]
  · intro hname
    rw [joinExisting_run r u k n hk hke hne]
    simp only [joinExistingPipeline, joinExistingThen]
    rw [if_neg hcond, if_neg, if_neg]
    · simp [hname]
    · simp [hname, truthyStr, hne]

/-- Witness for C5 at concrete states: first visit (no stored record),
stored name differing from the session name, and stored name matching. -/
theorem joinExisting_name_spec_witness :
    joinExistingWorkspaceWithDefaultPermission (some ⟨some "-w1"⟩)
        (some ⟨some "u1"⟩) (some "Alice") (some .READ_WRITE) (.ok none) =
      .completed (.updateNameColor "Alice" (colorFromUserId "u1")) ∧
    joinExistingWorkspaceWithDefaultPermission (some ⟨some "-w1"⟩)
        (some ⟨some "u1"⟩) (some "Alice") (some .READ_WRITE)
        (.ok (some { name := some "Bob", permission := none })) =
      .completed (.setName "Alice") ∧
    joinExistingWorkspaceWithDefaultPermission (some ⟨some "-w1"⟩)
        (some ⟨some "u1"⟩) (some "Alice") (some .READ_WRITE)
        (.ok (some { name := some "Alice", permission := none })) =
      .completed .noWrite :=
  ⟨(joinExisting_name_spec ⟨some "-w1"⟩ ⟨some "u1"⟩ "u1" "Alice" rfl
      (by decide) (by decide) .READ_WRITE none (by simp)).1 rfl,
   (joinExisting_name_spec ⟨some "-w1"⟩ ⟨some "u1"⟩ "u1" "Alice" rfl
      (by decide) (by decide) .READ_WRITE
      (some { name := some "Bob", permission := none }) (by simp)).2.1
     "Bob" rfl (by decide) (by decide),
   (joinExisting_name_spec ⟨some "-w1"⟩ ⟨some "u1"⟩ "u1" "Alice" rfl
      (by decide) (by decide) .READ_WRITE
      (some { name := some "Alice", permission := none }) (by simp)).2.2 rfl⟩

/-- C7: for every user delivered to the identity adapter — a non-null user
without a display name gets a default name of the form `"Anonymous "` plus
an element of the fixed animal list, persisted to the identity record and
set as the user-name state; a non-null user with a display name has that
stored name set as the user-name state with nothing persisted; a null user
clears the user-name state. -/
theorem setFirebaseUser_spec (user : Option FbUser) (i : Nat)
    (hi : i < animals.length) :
    (∀ u : FbUser, user = some u → truthyStr u.displayName = false →
      ∃ a, a ∈ animals ∧
        setFirebaseUser user i =
          { baseUser := some u
            userName := some ("Anonymous " ++ a)
            profileUpdate := some ("Anonymous " ++ a) }) ∧
    (∀ (u : FbUser) (s : String), user = some u → u.displayName = some s →
      s.isEmpty = false →
      setFirebaseUser user i =
        { baseUser := some u, userName := some s, profileUpdate := none }) ∧
    (user = none →
      setFirebaseUser user i =
        { baseUser := none, userName := none, profileUpdate := none }) := by
  refine ⟨?_, ?_, ?_⟩
  · rintro u rfl hname
    refine ⟨animals.getD i "", ?_, ?_⟩
    · rw [List.getD_eq_getElem animals "" hi]
      exact List.getElem_mem hi
    · simp [setFirebaseUser, hname]
  · rintro u s rfl hs hsE
    simp [setFirebaseUser, hs, truthyStr, hsE]
  · rintro rfl
    simp [setFirebaseUser]

/-- Witness for C7 at concrete users: an anonymous user without a display
name, a user with display name "Alice", and the null user. -/
theorem setFirebaseUser_spec_witness :
    (∃ a, a ∈ animals ∧
      setFirebaseUser (some ⟨none⟩) 0 =
        { baseUser := some ⟨none⟩
          userName := some ("Anonymous " ++ a)
          profileUpdate := some ("Anonymous " ++ a) }) ∧
    setFirebaseUser (some ⟨some "Alice"⟩) 0 =
      { baseUser := some ⟨some "Alice"⟩
        userName := some "Alice"
        profileUpdate := none } ∧
    setFirebaseUser none 0 =
      { baseUser := none, userName := none, profileUpdate := none } :=
  ⟨(setFirebaseUser_spec (some ⟨none⟩) 0 (by decide)).1 ⟨none⟩ rfl rfl,
   (setFirebaseUser_spec (some ⟨some "Alice"⟩) 0 (by decide)).2.1 ⟨some "Alice"⟩
     "Alice" rfl rfl (by decide),
   (setFirebaseUser_spec none 0 (by decide)).2.2 rfl⟩

/-- C8: in the settings modal, every opening seeds the draft from the last
committed values and clears the dirty flag; every draft mutation sets the
dirty flag; closing without saving while dirty and unconfirmed leaves the
state — in particular the open flag — unchanged, while a confirmed or clean
close clears the open flag. -/
theorem settingsModal_spec (st : ModalState) :
    (∀ dn : Option String,
      (openModal st dn).draft = st.committed ∧ (openModal st dn).dirty = false) ∧
    (∀ data : WorkspaceSettingsPatch, (onChangeSettings st data).dirty = true) ∧
    (st.dirty = true → closeWithoutSaving st false = st) ∧
    (st.isOpen = true → st.dirty = true →
      (closeWithoutSaving st false).isOpen = true) ∧
    (st.dirty = true → closeWithoutSaving st true = { st with isOpen := false }) ∧
    (st.dirty = false → closeWithoutSaving st false = { st with isOpen := false }) := by
  refine ⟨?_, ?_, ?_, ?_, ?_, ?_⟩
  · intro dn
    constructor
    · simp [openModal, mergeSettings, toPatch]
    · simp [openModal]
  · intro data
    simp [onChangeSettings]
  · intro hd
    simp [closeWithoutSaving, hd]
  · intro ho hd
    simp [closeWithoutSaving, hd, ho]
  · intro hd
    simp [closeWithoutSaving, hd]
  · intro hd
    simp [closeWithoutSaving, hd]

/-- Witness for C8 at a concrete dirty open modal state. -/
theorem settingsModal_spec_witness :
    ((openModal
        { isOpen := true
          committed := { compilerOptions := "-O2", language := "cpp" }
          draft := { compilerOptions := "", language := "" }
          dirty := true
          name := some "Alice"
          tab := "user" } (some "Alice")).draft =
      { compilerOptions := "-O2", language := "cpp" } ∧
     (openModal
        { isOpen := true
          committed := { compilerOptions := "-O2", language := "cpp" }
          draft := { compilerOptions := "", language := "" }
          dirty := true
          name := some "Alice"
          tab := "user" } (some "Alice")).dirty = false) ∧
    (closeWithoutSaving
        { isOpen := true
          committed := { compilerOptions := "-O2", language := "cpp" }
          draft := { compilerOptions := "", language := "" }
          dirty := true
          name := some "Alice"
          tab := "user" } false).isOpen = true :=
  ⟨(settingsModal_spec
      { isOpen := true
        committed := { compilerOptions := "-O2", language := "cpp" }
        draft := { compilerOptions := "", language := "" }
        dirty := true
        name := some "Alice"
        tab := "user" }).1 (some "Alice"),
   (settingsModal_spec
      { isOpen := true
        committed := { compilerOptions := "-O2", language := "cpp" }
        draft := { compilerOptions := "", language := "" }
        dirty := true
        name := some "Alice"
        tab := "user" }).2.2.2.1 rfl rfl⟩

/-- C9: for every source identifier whose length differs from 19, including
a missing identifier, the copy flow produces the bad-URL outcome — alerting
and redirecting to the start page with history replacement — uniformly in
the read outcome and the allocated key, so no read or write of the document
store is performed. -/
theorem copyFilePage_badUrl (fileId : Option String)
    (h : fileId.map String.length ≠ some 19)
    (readResult : Except FbError (String → Option Obj)) (newKey : String) :
    copyFilePageEffect fileId readResult newKey =
      .badUrl "Error: Bad URL" "/" true := by
  simp [copyFilePageEffect, h]

/-- Witness for C9 at a missing identifier. -/
theorem copyFilePage_badUrl_witness :
    copyFilePageEffect none (.ok fun _ => none) "-k0" =
      .badUrl "Error: Bad URL" "/" true :=
  copyFilePage_badUrl none (by simp) (.ok fun _ => none) "-k0"

/-- C3 (refuted on the code): resolving the same non-null identifier twice
in a row is not a no-op.  After the first invocation the stored identifier
is the resolved reference's key, which carries the dash naming-convention
character (`'-' + newId`), while callers supply the dashless identifier, so
the re-entry guard `baseFileId?.id === newId` never matches: the second
invocation with the identical payload resolves a reference again and, for a
new file, navigates again. -/
theorem setFileId_second_call_not_noop :
    (setFileId { baseFileId := none, firebaseRef := none }
        (some { newId := some "abc", isNewFile := some true }) "-p0" "").state =
      { baseFileId := some { id := "-abc", isNewFile := true }
        firebaseRef := some { key := some "-abc" } } ∧
    (setFileId
        { baseFileId := some { id := "-abc", isNewFile := true }
          firebaseRef := some { key := some "-abc" } }
        (some { newId := some "abc", isNewFile := some true }) "-p0"
        "").resolvedRef = true ∧
    (setFileId
        { baseFileId := some { id := "-abc", isNewFile := true }
          firebaseRef := some { key := some "-abc" } }
        (some { newId := some "abc", isNewFile := some true }) "-p0"
        "").navigatedTo = some "/abc" := by
  refine ⟨?_, ?_, ?_⟩ <;> decide

/-- A concrete empty source table used in witnesses. -/
def emptySrc : String → Option Obj := fun _ => none

/-- C4 (refuted as stated): at this concrete source document, whose
editor-cpp field contains a `users` subfield, the copy flow writes
editor-cpp with that subfield stripped — so the non-settings whitelisted
fields are not copied unchanged, and stripping is not specific to the
settings field. -/
theorem copyFilePage_strips_everywhere_cex :
    copyFilePageEffect (some "abcdefghijklmnopqrs")
        (.ok fun key =>
          if key = "editor-cpp" then
            some [("users", "cursors"), ("history", "h0")]
          else none)
        "-k0" =
      .copied
        [("editor-cpp", [("history", "h0")]), ("editor-java", []),
         ("editor-py", []), ("settings", []), ("input", [])]
        "k0" true ∧
    ([("history", "h0")] : Obj) ≠ [("users", "cursors"), ("history", "h0")] := by
  refine ⟨?_, ?_⟩ <;> decide

/-- C4 (amended): for every source identifier of the valid length and every
successful read, the copy flow writes into the new reference exactly the
whitelisted top-level fields, and the nested `users` and `defaultPermission`
fields are stripped from every one of them — not only from settings — with
each field's remaining contents copied unchanged. -/
theorem copyFilePage_copied_spec (fileId : Option String) (s : String)
    (hf : fileId = some s) (hlen : s.length = 19)
    (src : String → Option Obj) (newKey : String) :
    ∃ writes,
      copyFilePageEffect fileId (.ok src) newKey =
        .copied writes (newKey.drop 1) true ∧
      writes.map Prod.fst = keysToCopy ∧
      ∀ key val, (key, val) ∈ writes →
        (∀ kv ∈ val, kv ∈ (src key).getD [] ∧ kv.1 ≠ "users" ∧
          kv.1 ≠ "defaultPermission") ∧
        (∀ kv ∈ (src key).getD [], kv.1 ≠ "users" →
          kv.1 ≠ "defaultPermission" → kv ∈ val) := by
  subst hf
  refine ⟨keysToCopy.map fun key =>
    (key, stripUsersAndDefaultPermission ((src key).getD [])), ?_, ?_, ?_⟩
  · simp [copyFilePageEffect, hlen]
  · simp [keysToCopy]
  · intro key val hmem
    rw [List.mem_map] at hmem
    obtain ⟨k', -, heq⟩ := hmem
    cases heq
    constructor
    · intro kv hkv
      simp only [stripUsersAndDefaultPermission, List.mem_filter,
        Bool.and_eq_true, bne_iff_ne, ne_eq] at hkv
      exact ⟨hkv.1, hkv.2.1, hkv.2.2⟩
    · intro kv hkv h1 h2
      simp only [stripUsersAndDefaultPermission, List.mem_filter,
        Bool.and_eq_true, bne_iff_ne, ne_eq]
      exact ⟨hkv, h1, h2⟩

/-- Witness for the amended C4 at a concrete valid identifier and an empty
source document. -/
theorem copyFilePage_copied_spec_witness :
    ∃ writes,
      copyFilePageEffect (some "abcdefghijklmnopqrs") (.ok emptySrc) "-k0" =
        .copied writes ("-k0".drop 1) true ∧
      writes.map Prod.fst = keysToCopy ∧
      ∀ key val, (key, val) ∈ writes →
        (∀ kv ∈ val, kv ∈ (emptySrc key).getD [] ∧ kv.1 ≠ "users" ∧
          kv.1 ≠ "defaultPermission") ∧
        (∀ kv ∈ (emptySrc key).getD [], kv.1 ≠ "users" →
          kv.1 ≠ "defaultPermission" → kv ∈ val) :=
  copyFilePage_copied_spec (some "abcdefghijklmnopqrs") "abcdefghijklmnopqrs"
    rfl (by decide) emptySrc "-k0"

end IdeSpec
